import Mathlib

/-
Verification development for the expense-categorization and spending-analysis
engine of the Expense-tracker repository.

The embedding covers the two core modules:
  * ai_categorizer.py  (class AIExpenseCategorizer): the deterministic
    rule/pattern/amount classification pipeline `smart_categorize`;
  * financial_ai.py    (class FinancialAI): the `analyze_spending_patterns`
    statistics pipeline and the sub-computations the claims refer to.

Modelling conventions:
  * Python floats are modelled as rationals (ℚ).  `math`/`numpy` square roots
    (used only inside standard deviations) are not rational, so every
    analysis function is parametrised by a function `fsqrt : ℚ → ℚ` standing
    for the floating-point square root applied to the (exact, rational)
    variance.  Values that are NaN in pandas (sample std of fewer than two
    points, mean of an empty selection) are modelled as `Option ℚ` = `none`,
    and each use site reproduces the Python comparison semantics of NaN
    (every `<`-comparison with NaN is false, `max(0, nan) = 0`).
  * Strings are processed as `List Char`; only ASCII text is modelled
    (the Python class `\w` is `[A-Za-z0-9_]`, `\s` is `[ \t\n\r\x0b\x0c]` for ASCII).
  * Dates are modelled by the numeric code y*10000 + m*100 + d, which agrees
    with calendar order on valid dates; the day-of-month of a code is
    `code % 100`.  The `pd.to_datetime(..., errors="coerce")` and
    `pd.to_numeric(..., errors="coerce")` coercions of the raw input are
    modelled by `Option`-valued fields of the raw record (`none` = NaT/NaN).
-/

namespace ExpenseTracker

/-! ### Text normalisation (`AIExpenseCategorizer._clean_description`) -/

/-- ASCII model of the regex class `\w`. -/
def isWordChar (c : Char) : Bool := c.isAlphanum || c = '_'

/-- ASCII model of the regex class `\s`. -/
def isPySpace (c : Char) : Bool :=
  c = ' ' || c = '\t' || c = '\n' || c = '\r' || c = '\x0b' || c = '\x0c'

def toLowerCL (cs : List Char) : List Char := cs.map Char.toLower

/-- Python `str.strip()`: drop leading and trailing whitespace. -/
def pyStrip (cs : List Char) : List Char :=
  ((cs.dropWhile isPySpace).reverse.dropWhile isPySpace).reverse

/-- Model of re.sub with pattern "[^\\w\\s]" and replacement " ": every character that is neither a word
character nor whitespace becomes a space. -/
def punctToSpace (cs : List Char) : List Char :=
  cs.map (fun c => if isWordChar c || isPySpace c then c else ' ')

/-- Model of re.sub with pattern "\\s+" and replacement " ": each maximal whitespace run becomes one space. -/
def collapseWs : List Char → List Char
  | [] => []
  | [c] => [if isPySpace c then ' ' else c]
  | c1 :: c2 :: rest =>
    if isPySpace c1 && isPySpace c2 then collapseWs (c2 :: rest)
    else (if isPySpace c1 then ' ' else c1) :: collapseWs (c2 :: rest)

/-- Model of `_clean_description`: lower-case, strip, punctuation to spaces, collapse
whitespace (in that order; the result is not re-stripped, exactly as in the
source). -/
def cleanDescription (s : String) : List Char :=
  collapseWs (punctToSpace (pyStrip (toLowerCL s.data)))

/-- Python `str.split()` with no argument: tokens separated by whitespace,
empty tokens dropped.  After `cleanDescription` the only whitespace is `' '`. -/
def splitTokensGo : List Char → List Char → List (List Char)
  | [], cur => if cur.isEmpty then [] else [cur.reverse]
  | c :: rest, cur =>
    if c = ' ' then
      if cur.isEmpty then splitTokensGo rest [] else cur.reverse :: splitTokensGo rest []
    else splitTokensGo rest (c :: cur)

def splitTokens (cs : List Char) : List (List Char) := splitTokensGo cs []

/-- Tests that `pat` is a prefix of `s` (used for regex matches with no trailing word boundary). -/
def leadsWith : List Char → List Char → Bool
  | [], _ => true
  | _ :: _, [] => false
  | a :: as, b :: bs => a = b && leadsWith as bs

/-- Python substring containment (`pat in s`): `pat` occurs as a contiguous substring. -/
def occursIn (pat : List Char) : List Char → Bool
  | [] => pat.isEmpty
  | c :: rest => leadsWith pat (c :: rest) || occursIn pat rest

/-! ### Keyword tables (`self.category_keywords`, in source order) -/

def foodKws : List String :=
  ["restaurant", "food", "dinner", "lunch", "breakfast", "cafe", "coffee",
   "pizza", "burger", "sandwich", "meal", "eat", "dining", "kitchen",
   "grocery", "supermarket", "vegetables", "fruits", "snacks", "drink",
   "bar", "pub", "takeaway", "delivery", "swiggy", "zomato", "dominos",
   "mcdonalds", "kfc", "subway", "starbucks", "chai", "tea", "juice",
   "bakery", "ice cream", "sweet", "milk", "bread", "rice", "dal",
   "chicken", "mutton", "fish", "biryani", "dosa", "idli", "vada",
   "groceries", "market", "vegetables", "fruits", "cooking", "spices"]

def transportKws : List String :=
  ["uber", "ola", "taxi", "auto", "rickshaw", "cab", "ride",
   "bus", "metro", "train", "flight", "airplane", "railway",
   "fuel", "petrol", "diesel", "gas", "parking", "toll", "challan",
   "ticket", "travel", "transport", "bike", "car", "vehicle",
   "booking", "irctc", "goibibo", "makemytrip"]

def shoppingKws : List String :=
  ["amazon", "flipkart", "myntra", "ajio", "nykaa", "shop", "shopping",
   "store", "mall", "market", "buy", "purchase", "sale",
   "clothes", "shoes", "dress", "shirt", "pants", "bag", "watch",
   "electronics", "mobile", "phone", "laptop", "gadget", "appliance",
   "furniture", "home", "decoration", "gift"]

def entertainmentKws : List String :=
  ["netflix", "amazon prime", "hotstar", "spotify", "youtube", "music",
   "subscription", "app", "game", "gaming",
   "movie", "cinema", "theatre", "concert", "show", "party", "club",
   "fun", "entertainment", "festival", "event", "ticket", "bookmyshow"]

def healthcareKws : List String :=
  ["doctor", "hospital", "clinic", "medical", "health", "dental", "dentist",
   "checkup", "treatment", "surgery", "consultation", "appointment",
   "medicine", "pharmacy", "drug", "tablet", "prescription", "vitamin",
   "supplement", "lab", "test", "xray", "scan", "insurance"]

def billsKws : List String :=
  ["electricity", "water", "gas", "utility", "bill", "payment",
   "internet", "wifi", "broadband", "phone", "mobile", "recharge",
   "airtel", "jio", "vodafone", "bsnl",
   "rent", "maintenance", "society", "apartment", "house",
   "cable", "tv", "insurance", "loan", "emi", "bank", "credit card"]

def educationKws : List String :=
  ["school", "college", "university", "course", "book", "study",
   "education", "tuition", "fee", "exam", "certification", "training",
   "workshop", "seminar", "library", "stationery", "notebook",
   "online course", "udemy", "coursera", "skill"]

def otherKws : List String :=
  ["miscellaneous", "other", "unknown", "cash", "atm", "withdrawal",
   "transfer", "salary", "income", "refund", "return"]

/-- The keyword table in Python dict insertion order. -/
def categoryKeywords : List (String × List String) :=
  [("Food", foodKws), ("Transportation", transportKws), ("Shopping", shoppingKws),
   ("Entertainment", entertainmentKws), ("Healthcare", healthcareKws),
   ("Bills", billsKws), ("Education", educationKws), ("Other", otherKws)]

/-! ### Keyword-rule scoring (`_categorize_by_enhanced_rules`)

The loop body adds, per keyword: 2.0 for an exact substring match of the
keyword in the description, else 1.5 for a single-word keyword present as a
whole token, else 2.5 for a multi-word keyword all of whose words are tokens.
Scores are kept in half-units (4/3/5 : ℕ) so that the per-keyword
contribution is a natural number; the loop accumulators (score, matched
keyword count, matched chars, total chars) are recovered as sums over the
keyword list, which is exactly what the one-pass loop computes. -/

def kwLower (k : String) : List Char := toLowerCL k.data

/-- Twice the score contribution of one keyword (the `keyword_lower` checks
of the source, in order). -/
def kwScoreHalf (desc : List Char) (words : List (List Char)) (kw : List Char) : ℕ :=
  if occursIn kw desc then 4
  else
    match splitTokens kw with
    | [w] => if words.contains w then 3 else 0
    | ws => if ws.all (fun w => words.contains w) then 5 else 0

def catScoreHalf (desc : List Char) (kws : List String) : ℕ :=
  (kws.map (fun k => kwScoreHalf desc (splitTokens desc) (kwLower k))).sum

def catMatchedCount (desc : List Char) (kws : List String) : ℕ :=
  (kws.filter (fun k => decide (0 < kwScoreHalf desc (splitTokens desc) (kwLower k)))).length

def catMatchedChars (desc : List Char) (kws : List String) : ℕ :=
  ((kws.filter (fun k => decide (0 < kwScoreHalf desc (splitTokens desc) (kwLower k)))).map
    (fun k => (kwLower k).length)).sum

/-- The accumulator `total_keyword_chars`: the loop adds `len(keyword_lower)` on every
iteration, so it is the total character count of the table entry. -/
def catTotalChars (kws : List String) : ℕ := ((kws.map kwLower).map List.length).sum

/-- The confidence `final_score = base_score*0.5 + char_coverage*0.3 + match_bonus*0.2`,
guarded by `len(keywords) > 0 and total_keyword_chars > 0` as in the source
(when the guard fails the loop never compares this category against the
running maximum; returning 0 here is equivalent, because the running maximum
starts at 0 and only strictly larger scores replace it). -/
def categoryConfidence (desc : List Char) (kws : List String) : ℚ :=
  if 0 < kws.length ∧ 0 < catTotalChars kws then
    ((catScoreHalf desc kws : ℚ) / 2 / (kws.length : ℚ)) * (1/2)
      + ((catMatchedChars desc kws : ℚ) / (catTotalChars kws : ℚ)) * (3/10)
      + min ((catMatchedCount desc kws : ℚ) / (kws.length : ℚ)) 1 * (1/5)
  else 0

/-- The `for category, keywords in self.category_keywords.items()` loop:
strictly larger confidence replaces the running best, so on ties the
earlier category wins; the best starts as ("Other", 0). -/
def bestKeywordCategory : List (String × List String) → List Char → String × ℚ → String × ℚ
  | [], _, cur => cur
  | e :: rest, desc, cur =>
    let c := categoryConfidence desc e.2
    bestKeywordCategory rest desc (if cur.2 < c then (e.1, c) else cur)

/-- Model of `_categorize_by_enhanced_rules`: returns `(best_category, min(max_score, 1.0))`. -/
def categorizeByEnhancedRules (desc : List Char) : String × ℚ :=
  let bc := bestKeywordCategory categoryKeywords desc ("Other", 0)
  (bc.1, min bc.2 1)

/-! ### Pattern scoring (`_categorize_by_patterns`)

Every regex in the table has one of two shapes over the cleaned description
(whose characters are word characters and single spaces only):
  * `\b(a|b|..)\s+(c|d|..)`  — a token equal to one of the first
    alternatives immediately followed by a token that starts with one of the
    second alternatives (no trailing `\b` in the source regexes);
  * `\b(a|b|..)\b`           — a token equal to one of the alternatives.
`patCount` counts the token positions at which the pattern matches.  For
these particular alternative sets no two matches can overlap (no first-group
word is also a prefix-extension start of a second group), so this count
equals `len(re.findall(...))`; in any case the code only uses the count
through `min(1.0, 0.8 + 0.2*count)`, which depends on the count only through
its positivity. -/

inductive SpendPattern
  | pairPat (first follow : List String)
  | wordPat (ws : List String)

def tokenIsAny (ws : List String) (t : List Char) : Bool :=
  ws.any (fun w => t = w.data)

def tokenLeadsAny (ws : List String) (t : List Char) : Bool :=
  ws.any (fun w => leadsWith w.data t)

def pairCount (fs ss : List String) : List (List Char) → ℕ
  | t1 :: t2 :: rest =>
    (if tokenIsAny fs t1 && tokenLeadsAny ss t2 then 1 else 0) + pairCount fs ss (t2 :: rest)
  | _ => 0

def patCount (toks : List (List Char)) : SpendPattern → ℕ
  | .pairPat fs ss => pairCount fs ss toks
  | .wordPat ws => toks.countP (tokenIsAny ws)

/-- The `patterns` dict of `_categorize_by_patterns`, in source order. -/
def spendPatterns : List (String × List SpendPattern) :=
  [("Food",
    [.pairPat ["bought", "ordered", "ate", "had"] ["food", "dinner", "lunch", "breakfast"],
     .wordPat ["restaurant", "cafe", "hotel", "dhaba"],
     .wordPat ["zomato", "swiggy", "dominos", "pizza", "burger"],
     .wordPat ["grocery", "vegetables", "fruits", "milk", "bread"]]),
   ("Transportation",
    [.pairPat ["uber", "ola", "taxi", "auto", "cab"] ["ride", "trip", "booking"],
     .pairPat ["bus", "train", "metro", "flight"] ["ticket", "fare"],
     .pairPat ["fuel", "petrol", "diesel"] ["filled", "tank"],
     .wordPat ["parking", "toll", "challan"]]),
   ("Shopping",
    [.wordPat ["amazon", "flipkart", "myntra"],
     .pairPat ["bought", "purchased", "ordered"] ["clothes", "shoes", "mobile", "laptop"],
     .wordPat ["shopping", "mall", "store"]]),
   ("Entertainment",
    [.pairPat ["movie", "cinema", "show", "concert"] ["ticket", "booking"],
     .pairPat ["netflix", "spotify", "prime"] ["subscription", "payment"],
     .wordPat ["game", "gaming", "entertainment"]]),
   ("Healthcare",
    [.pairPat ["doctor", "hospital", "clinic"] ["visit", "consultation", "checkup"],
     .wordPat ["medicine", "pharmacy", "drug", "tablet"],
     .pairPat ["medical", "health", "dental"] ["bill", "payment", "insurance"]]),
   ("Bills",
    [.pairPat ["electricity", "water", "gas", "internet", "wifi"] ["bill", "payment"],
     .pairPat ["mobile", "phone"] ["recharge", "bill"],
     .pairPat ["rent", "maintenance", "emi"] ["payment", "paid"]])]

/-- One pattern of the inner loop: on a regex match,
`confidence = 0.8 + 0.2*count`, and if it beats the running maximum the
clamped value `min(confidence, 1.0)` is stored together with the category. -/
def patternStep (toks : List (List Char)) (cat : String) (cur : String × ℚ)
    (p : SpendPattern) : String × ℚ :=
  let k := patCount toks p
  if 0 < k then
    let c : ℚ := 4/5 + (k : ℚ) * (1/5)
    if cur.2 < c then (cat, min c 1) else cur
  else cur

def categorizeByPatterns (desc : List Char) : String × ℚ :=
  spendPatterns.foldl
    (fun cur e => e.2.foldl (patternStep (splitTokens desc) e.1) cur) ("Other", 0)

/-! ### Amount-bucket heuristics (`_categorize_by_amount`) -/

def containsAny (desc : List Char) (ws : List String) : Bool :=
  ws.any (fun w => occursIn w.data desc)

def categorizeByAmount (desc : List Char) (amount : ℚ) : Option String :=
  if amount ≤ 0 then none
  else if amount < 100 then
    if containsAny desc ["coffee", "tea", "snack", "chai", "juice", "water"] then some "Food"
    else if containsAny desc ["auto", "bus", "metro", "parking", "toll"] then some "Transportation"
    else some "Food"
  else if amount < 500 then
    if containsAny desc ["movie", "game", "ticket", "entertainment"] then some "Entertainment"
    else if containsAny desc ["uber", "ola", "taxi", "fuel", "petrol"] then some "Transportation"
    else if containsAny desc ["medicine", "pharmacy", "doctor"] then some "Healthcare"
    else none
  else if amount < 2000 then
    if containsAny desc ["restaurant", "hotel", "dining", "dinner"] then some "Food"
    else if containsAny desc ["clothes", "shoes", "shopping", "mall"] then some "Shopping"
    else if containsAny desc ["bill", "recharge", "internet", "mobile"] then some "Bills"
    else none
  else if amount < 10000 then
    if containsAny desc ["rent", "maintenance", "electricity", "insurance"] then some "Bills"
    else if containsAny desc ["laptop", "phone", "tv", "electronics", "appliance"] then some "Shopping"
    else if containsAny desc ["hospital", "surgery", "treatment", "medical"] then some "Healthcare"
    else some "Shopping"
  else
    if containsAny desc ["rent", "emi", "loan", "insurance"] then some "Bills"
    else if containsAny desc ["laptop", "mobile", "car", "bike", "gold", "investment"] then some "Shopping"
    else some "Bills"

/-! ### `smart_categorize` -/

def smartCategorize (description : String) (amount : ℚ) : String × ℚ :=
  let desc := cleanDescription description
  if desc.isEmpty then ("Other", 1/10)
  else
    let rules := categorizeByEnhancedRules desc
    if 7/10 < rules.2 then rules
    else
      let pat := categorizeByPatterns desc
      if 4/5 < pat.2 then pat
      else
        let fb := if 3/10 < rules.2 then rules
                  else if 3/10 < pat.2 then pat
                  else ("Other", 1/5)
        match categorizeByAmount desc amount with
        | some ac => if rules.2 < 1/2 then (ac, 3/5) else fb
        | none => fb

/-- Variant of `smart_categorize` with the step-5 `elif pattern_confidence > 0.3` branch
deleted: used to state that this branch is unreachable (claim C10). -/
def smartCategorizeNoPatternFB (description : String) (amount : ℚ) : String × ℚ :=
  let desc := cleanDescription description
  if desc.isEmpty then ("Other", 1/10)
  else
    let rules := categorizeByEnhancedRules desc
    if 7/10 < rules.2 then rules
    else
      let pat := categorizeByPatterns desc
      if 4/5 < pat.2 then pat
      else
        let fb := if 3/10 < rules.2 then rules else ("Other", 1/5)
        match categorizeByAmount desc amount with
        | some ac => if rules.2 < 1/2 then (ac, 3/5) else fb
        | none => fb

/-! ### Lemmas about the keyword-rule stage -/

lemma bestKeywordCategory_append (l1 l2 : List (String × List String)) (desc : List Char)
    (cur : String × ℚ) :
    bestKeywordCategory (l1 ++ l2) desc cur
      = bestKeywordCategory l2 desc (bestKeywordCategory l1 desc cur) := by
  induction l1 generalizing cur with
  | nil => rfl
  | cons e rest ih =>
    simp only [List.cons_append, bestKeywordCategory]
    exact ih _

lemma bestKeywordCategory_zeros (entries : List (String × List String)) (desc : List Char)
    (cur : String × ℚ) (hz : ∀ e ∈ entries, categoryConfidence desc e.2 = 0)
    (hcur : 0 ≤ cur.2) : bestKeywordCategory entries desc cur = cur := by
  induction entries with
  | nil => rfl
  | cons e rest ih =>
    have he : categoryConfidence desc e.2 = 0 := hz e (by simp)
    simp only [bestKeywordCategory, he]
    rw [if_neg (not_lt.mpr hcur)]
    exact ih (fun x hx => hz x (by simp [hx]))

/-- If every category before and after one distinguished entry scores 0 while
that entry scores positively, the scan returns the distinguished entry. -/
lemma bestKeywordCategory_pick (desc : List Char) (pre post : List (String × List String))
    (cat : String) (kws : List String)
    (hzpre : ∀ e ∈ pre, categoryConfidence desc e.2 = 0)
    (hzpost : ∀ e ∈ post, categoryConfidence desc e.2 = 0)
    (hpos : 0 < categoryConfidence desc kws) :
    bestKeywordCategory (pre ++ (cat, kws) :: post) desc ("Other", 0)
      = (cat, categoryConfidence desc kws) := by
  rw [bestKeywordCategory_append, bestKeywordCategory_zeros pre desc _ hzpre le_rfl]
  simp only [bestKeywordCategory]
  rw [if_pos (show (("Other", (0 : ℚ))).2 < categoryConfidence desc kws from hpos)]
  exact bestKeywordCategory_zeros post desc _ hzpost (le_of_lt hpos)

lemma categoryConfidence_eq_zero (desc : List Char) (kws : List String)
    (h : ∀ kw ∈ kws, kwScoreHalf desc (splitTokens desc) (kwLower kw) = 0) :
    categoryConfidence desc kws = 0 := by
  have hs : catScoreHalf desc kws = 0 := by
    apply List.sum_eq_zero
    intro x hx
    rcases List.mem_map.mp hx with ⟨kw, hkw, rfl⟩
    exact h kw hkw
  have hf : kws.filter (fun k => decide (0 < kwScoreHalf desc (splitTokens desc) (kwLower k)))
      = [] := by
    rw [List.filter_eq_nil_iff]
    intro kw hkw
    simp [h kw hkw]
  have hmc : catMatchedCount desc kws = 0 := by rw [catMatchedCount, hf]; rfl
  have hmch : catMatchedChars desc kws = 0 := by rw [catMatchedChars, hf]; rfl
  unfold categoryConfidence
  split
  · rw [hs, hmc, hmch]
    norm_num
  · rfl

lemma categoryConfidence_pos (desc : List Char) (kws : List String)
    (hex : ∃ kw ∈ kws, occursIn (kwLower kw) desc = true)
    (hn : 0 < kws.length) (ht : 0 < catTotalChars kws) :
    0 < categoryConfidence desc kws := by
  obtain ⟨kw, hkw, hocc⟩ := hex
  have hm : kwScoreHalf desc (splitTokens desc) (kwLower kw) = 4 := by
    simp [kwScoreHalf, hocc]
  have h4 : 4 ≤ catScoreHalf desc kws := by
    have hle : kwScoreHalf desc (splitTokens desc) (kwLower kw)
        ≤ (kws.map fun k => kwScoreHalf desc (splitTokens desc) (kwLower k)).sum :=
      List.single_le_sum (fun _ _ => Nat.zero_le _) _ (List.mem_map_of_mem _ hkw)
    rw [hm] at hle
    exact hle
  have hsq : (0 : ℚ) < (catScoreHalf desc kws : ℚ) := by exact_mod_cast lt_of_lt_of_le (by norm_num) h4
  have hnq : (0 : ℚ) < (kws.length : ℚ) := by exact_mod_cast hn
  have htq : (0 : ℚ) < (catTotalChars kws : ℚ) := by exact_mod_cast ht
  unfold categoryConfidence
  rw [if_pos ⟨hn, ht⟩]
  have h1 : 0 < ((catScoreHalf desc kws : ℚ) / 2 / (kws.length : ℚ)) * (1/2) := by
    apply mul_pos _ (by norm_num)
    exact div_pos (div_pos hsq (by norm_num)) hnq
  have h2 : 0 ≤ ((catMatchedChars desc kws : ℚ) / (catTotalChars kws : ℚ)) * (3/10) := by
    apply mul_nonneg _ (by norm_num)
    exact div_nonneg (Nat.cast_nonneg _) (le_of_lt htq)
  have h3 : 0 ≤ min ((catMatchedCount desc kws : ℚ) / (kws.length : ℚ)) 1 * (1/5) := by
    apply mul_nonneg _ (by norm_num)
    exact le_min (div_nonneg (Nat.cast_nonneg _) (le_of_lt hnq)) zero_le_one
  linarith

/-- Helper to extract, from the existence hypothesis of claim C1, a matching
keyword of the (unique) table entry carrying the given category name. -/
lemma hex_entry (desc : List Char) (cat : String) (kws : List String)
    (hex : ∃ e ∈ categoryKeywords, e.1 = cat ∧
      ∃ kw ∈ e.2, occursIn (kwLower kw) desc = true)
    (huniq : ∀ e ∈ categoryKeywords, e.1 = cat → e.2 = kws) :
    ∃ kw ∈ kws, occursIn (kwLower kw) desc = true := by
  obtain ⟨e, he, hn, hkw⟩ := hex
  rw [← huniq e he hn]
  exact hkw

/-- The shape of the conclusion of claim C1 (amended), proved for one
concrete position of the winning category in the table. -/
lemma winner_case (desc : List Char) (pre post : List (String × List String))
    (cat : String) (kws : List String)
    (hsplit : categoryKeywords = pre ++ (cat, kws) :: post)
    (hzpre : ∀ e ∈ pre, categoryConfidence desc e.2 = 0)
    (hzpost : ∀ e ∈ post, categoryConfidence desc e.2 = 0)
    (hpos : 0 < categoryConfidence desc kws) :
    (categorizeByEnhancedRules desc).1 = cat ∧ 0 < (categorizeByEnhancedRules desc).2 := by
  unfold categorizeByEnhancedRules
  rw [hsplit, bestKeywordCategory_pick desc pre post cat kws hzpre hzpost hpos]
  exact ⟨rfl, lt_min hpos one_pos⟩

/-! ### Lemmas about the pattern stage -/

lemma patternStep_snd (toks : List (List Char)) (cat : String) (cur : String × ℚ)
    (p : SpendPattern) (h : cur.2 = 0 ∨ cur.2 = 1) :
    (patternStep toks cat cur p).2 = 0 ∨ (patternStep toks cat cur p).2 = 1 := by
  unfold patternStep
  by_cases hk : 0 < patCount toks p
  · rw [if_pos hk]
    have hc : (1 : ℚ) ≤ 4/5 + (patCount toks p : ℚ) * (1/5) := by
      have h1 : (1 : ℚ) ≤ (patCount toks p : ℚ) := by exact_mod_cast hk
      linarith
    by_cases hcur : cur.2 < 4/5 + (patCount toks p : ℚ) * (1/5)
    · rw [if_pos hcur]
      right
      simpa using min_eq_right hc
    · rw [if_neg hcur]
      exact h
  · rw [if_neg hk]
    exact h

lemma patfold_inner (toks : List (List Char)) (cat : String) (ps : List SpendPattern)
    (cur : String × ℚ) (h : cur.2 = 0 ∨ cur.2 = 1) :
    (ps.foldl (patternStep toks cat) cur).2 = 0 ∨ (ps.foldl (patternStep toks cat) cur).2 = 1 := by
  induction ps generalizing cur with
  | nil => exact h
  | cons p ps ih => exact ih _ (patternStep_snd toks cat cur p h)

lemma patfold_outer (toks : List (List Char)) (es : List (String × List SpendPattern))
    (cur : String × ℚ) (h : cur.2 = 0 ∨ cur.2 = 1) :
    ((es.foldl (fun cur e => e.2.foldl (patternStep toks e.1) cur) cur)).2 = 0 ∨
      ((es.foldl (fun cur e => e.2.foldl (patternStep toks e.1) cur) cur)).2 = 1 := by
  induction es generalizing cur with
  | nil => exact h
  | cons e es ih => exact ih _ (patfold_inner toks e.1 e.2 cur h)

lemma categorizeByPatterns_snd (desc : List Char) :
    (categorizeByPatterns desc).2 = 0 ∨ (categorizeByPatterns desc).2 = 1 :=
  patfold_outer _ _ _ (Or.inl rfl)

/-! ### Claim C10 -/

/-- C10: for every description, the pattern-scoring stage returns confidence
0 (no regex matched) or exactly 1.0 (some regex matched, because
`min(1.0, 0.8 + 0.2*count)` is 1.0 for any positive count); consequently the
step-5 fallback branch `elif pattern_confidence > 0.3` of `smart_categorize`
can never produce the result: deleting it does not change the function. -/
theorem C10_pattern_saturation : ∀ (s : String) (a : ℚ),
    ((categorizeByPatterns (cleanDescription s)).2 = 0 ∨
      (categorizeByPatterns (cleanDescription s)).2 = 1)
    ∧ smartCategorize s a = smartCategorizeNoPatternFB s a := by
  intro s a
  refine ⟨categorizeByPatterns_snd _, ?_⟩
  unfold smartCategorize smartCategorizeNoPatternFB
  by_cases h0 : (cleanDescription s).isEmpty
  · simp [h0]
  · simp only [h0, Bool.false_eq_true, if_false]
    by_cases h1 : 7/10 < (categorizeByEnhancedRules (cleanDescription s)).2
    · simp [h1]
    · rw [if_neg h1, if_neg h1]
      by_cases h2 : 4/5 < (categorizeByPatterns (cleanDescription s)).2
      · simp [h2]
      · have hp0 : (categorizeByPatterns (cleanDescription s)).2 = 0 := by
          rcases categorizeByPatterns_snd (cleanDescription s) with h | h
          · exact h
          · exact absurd (h ▸ (by norm_num : (4:ℚ)/5 < 1)) h2
        rw [if_neg h2, if_neg h2, hp0]
        rw [if_neg (by norm_num : ¬ (3:ℚ)/10 < 0)]

/-! ### Claim C1 -/

/-- C1 (amended): for every description that contains some category exact
keyword phrase as a substring and matches no keyword of any other category
(in any of the three senses the keyword loop checks), the keyword-rule stage
`_categorize_by_enhanced_rules` selects that category, with positive
confidence — but this confidence need not exceed 0.7, so `smart_categorize`
need not return the category with confidence > 0.7 (see the counterexample). -/
theorem C1_keyword_stage_winner (s : String) (cat : String)
    (hcat : cat ∈ categoryKeywords.map Prod.fst)
    (hex : ∃ e ∈ categoryKeywords, e.1 = cat ∧
      ∃ kw ∈ e.2, occursIn (kwLower kw) (cleanDescription s) = true)
    (hnone : ∀ e ∈ categoryKeywords, e.1 ≠ cat → ∀ kw ∈ e.2,
      kwScoreHalf (cleanDescription s) (splitTokens (cleanDescription s)) (kwLower kw) = 0) :
    (categorizeByEnhancedRules (cleanDescription s)).1 = cat ∧
      0 < (categorizeByEnhancedRules (cleanDescription s)).2 := by
  have hz : ∀ e ∈ categoryKeywords, e.1 ≠ cat →
      categoryConfidence (cleanDescription s) e.2 = 0 := fun e he hne =>
    categoryConfidence_eq_zero _ _ (hnone e he hne)
  fin_cases hcat
  · exact winner_case _ [] _ "Food" foodKws rfl (by simp)
      (by intro e he; fin_cases he <;> exact hz _ (by decide) (by decide))
      (categoryConfidence_pos _ _ (hex_entry _ _ _ hex (by decide)) (by decide) (by decide))
  · exact winner_case _ [("Food", foodKws)] _ "Transportation" transportKws rfl
      (by intro e he; fin_cases he <;> exact hz _ (by decide) (by decide))
      (by intro e he; fin_cases he <;> exact hz _ (by decide) (by decide))
      (categoryConfidence_pos _ _ (hex_entry _ _ _ hex (by decide)) (by decide) (by decide))
  · exact winner_case _ [("Food", foodKws), ("Transportation", transportKws)] _
      "Shopping" shoppingKws rfl
      (by intro e he; fin_cases he <;> exact hz _ (by decide) (by decide))
      (by intro e he; fin_cases he <;> exact hz _ (by decide) (by decide))
      (categoryConfidence_pos _ _ (hex_entry _ _ _ hex (by decide)) (by decide) (by decide))
  · exact winner_case _
      [("Food", foodKws), ("Transportation", transportKws), ("Shopping", shoppingKws)] _
      "Entertainment" entertainmentKws rfl
      (by intro e he; fin_cases he <;> exact hz _ (by decide) (by decide))
      (by intro e he; fin_cases he <;> exact hz _ (by decide) (by decide))
      (categoryConfidence_pos _ _ (hex_entry _ _ _ hex (by decide)) (by decide) (by decide))
  · exact winner_case _
      [("Food", foodKws), ("Transportation", transportKws), ("Shopping", shoppingKws),
       ("Entertainment", entertainmentKws)] _ "Healthcare" healthcareKws rfl
      (by intro e he; fin_cases he <;> exact hz _ (by decide) (by decide))
      (by intro e he; fin_cases he <;> exact hz _ (by decide) (by decide))
      (categoryConfidence_pos _ _ (hex_entry _ _ _ hex (by decide)) (by decide) (by decide))
  · exact winner_case _
      [("Food", foodKws), ("Transportation", transportKws), ("Shopping", shoppingKws),
       ("Entertainment", entertainmentKws), ("Healthcare", healthcareKws)] _
      "Bills" billsKws rfl
      (by intro e he; fin_cases he <;> exact hz _ (by decide) (by decide))
      (by intro e he; fin_cases he <;> exact hz _ (by decide) (by decide))
      (categoryConfidence_pos _ _ (hex_entry _ _ _ hex (by decide)) (by decide) (by decide))
  · exact winner_case _
      [("Food", foodKws), ("Transportation", transportKws), ("Shopping", shoppingKws),
       ("Entertainment", entertainmentKws), ("Healthcare", healthcareKws),
       ("Bills", billsKws)] _ "Education" educationKws rfl
      (by intro e he; fin_cases he <;> exact hz _ (by decide) (by decide))
      (by intro e he; fin_cases he <;> exact hz _ (by decide) (by decide))
      (categoryConfidence_pos _ _ (hex_entry _ _ _ hex (by decide)) (by decide) (by decide))
  · exact winner_case _
      [("Food", foodKws), ("Transportation", transportKws), ("Shopping", shoppingKws),
       ("Entertainment", entertainmentKws), ("Healthcare", healthcareKws),
       ("Bills", billsKws), ("Education", educationKws)] [] "Other" otherKws rfl
      (by intro e he; fin_cases he <;> exact hz _ (by decide) (by decide))
      (by simp)
      (categoryConfidence_pos _ _ (hex_entry _ _ _ hex (by decide)) (by decide) (by decide))

/-- Witness for C1 (amended): the description "uber" contains the
Transportation keyword "uber" and matches no other category keyword, and
the keyword stage indeed selects Transportation with positive confidence. -/
theorem C1_keyword_stage_winner_witness :
    ("Transportation" ∈ categoryKeywords.map Prod.fst) ∧
    (∃ e ∈ categoryKeywords, e.1 = "Transportation" ∧
      ∃ kw ∈ e.2, occursIn (kwLower kw) (cleanDescription "uber") = true) ∧
    ((categorizeByEnhancedRules (cleanDescription "uber")).1 = "Transportation" ∧
      0 < (categorizeByEnhancedRules (cleanDescription "uber")).2) :=
  ⟨by decide, by decide,
    C1_keyword_stage_winner "uber" "Transportation" (by decide) (by decide) (by decide)⟩

/-- The keyword stage on "uber": only the entry "uber" of Transportation
matches (exact substring, weight 2.0), giving confidence
`(2/30)*0.5 + (4/165)*0.3 + (1/30)*0.2 = 13/275 ≈ 0.047`. -/
lemma rules_eval_uber :
    categorizeByEnhancedRules (cleanDescription "uber") = ("Transportation", 13/275) := by
  have hval : categoryConfidence (cleanDescription "uber") transportKws = 13/275 := by
    unfold categoryConfidence
    rw [if_pos (by decide : 0 < transportKws.length ∧ 0 < catTotalChars transportKws)]
    rw [(by decide : catScoreHalf (cleanDescription "uber") transportKws = 4),
        (by decide : catMatchedChars (cleanDescription "uber") transportKws = 4),
        (by decide : catMatchedCount (cleanDescription "uber") transportKws = 1),
        (by decide : transportKws.length = 30),
        (by decide : catTotalChars transportKws = 165)]
    rw [min_eq_left (by norm_num : ((1:ℕ) : ℚ) / ((30:ℕ) : ℚ) ≤ 1)]
    norm_num
  have hpos : 0 < categoryConfidence (cleanDescription "uber") transportKws := by
    rw [hval]; norm_num
  have hpick : bestKeywordCategory categoryKeywords (cleanDescription "uber") ("Other", 0)
      = ("Transportation", categoryConfidence (cleanDescription "uber") transportKws) :=
    bestKeywordCategory_pick (cleanDescription "uber") [("Food", foodKws)]
      [("Shopping", shoppingKws), ("Entertainment", entertainmentKws),
       ("Healthcare", healthcareKws), ("Bills", billsKws),
       ("Education", educationKws), ("Other", otherKws)] "Transportation" transportKws
      (by intro e he; fin_cases he <;> exact categoryConfidence_eq_zero _ _ (by decide))
      (by intro e he; fin_cases he <;> exact categoryConfidence_eq_zero _ _ (by decide))
      hpos
  simp only [categorizeByEnhancedRules]
  rw [hpick, hval]
  simp [min_eq_left (show (13:ℚ)/275 ≤ 1 by norm_num)]

/-- C1 counterexample: the description "uber" contains Transportation exact
keyword phrase "uber" and matches no keyword of any other category, yet
`smart_categorize("uber", 0)` returns ("Other", 0.2) — neither the keyword
category nor any confidence above 0.7.  (The single-keyword confidence
13/275 ≈ 0.047 is far below every threshold, so the call falls through to
the final fallback.) -/
theorem C1_counterexample :
    ("Transportation" ∈ categoryKeywords.map Prod.fst) ∧
    (∃ e ∈ categoryKeywords, e.1 = "Transportation" ∧
      ∃ kw ∈ e.2, occursIn (kwLower kw) (cleanDescription "uber") = true) ∧
    (∀ e ∈ categoryKeywords, e.1 ≠ "Transportation" → ∀ kw ∈ e.2,
      kwScoreHalf (cleanDescription "uber") (splitTokens (cleanDescription "uber"))
        (kwLower kw) = 0) ∧
    smartCategorize "uber" 0 = ("Other", 1/5) ∧
    ¬ (7/10 < (smartCategorize "uber" 0).2) := by
  have hsc : smartCategorize "uber" 0 = ("Other", 1/5) := by
    simp only [smartCategorize]
    rw [(by decide : (cleanDescription "uber").isEmpty = false), rules_eval_uber,
      (by decide : categorizeByPatterns (cleanDescription "uber") = ("Other", 0)),
      (by decide : categorizeByAmount (cleanDescription "uber") 0 = none)]
    norm_num
  refine ⟨by decide, by decide, by decide, hsc, ?_⟩
  rw [hsc]
  norm_num

/-! ### Claim C8 -/

/-- C8 counterexample: in the bins [100,500) and [500,2000) the
amount-bucket stage has no default category: with a description matching
none of the bins listed substrings it produces no category at all
(`_categorize_by_amount` returns None), contradicting the claim that every
one of the five bins has an explicit default. -/
theorem C8_counterexample :
    containsAny (cleanDescription "x") ["movie", "game", "ticket", "entertainment"] = false ∧
    containsAny (cleanDescription "x") ["uber", "ola", "taxi", "fuel", "petrol"] = false ∧
    containsAny (cleanDescription "x") ["medicine", "pharmacy", "doctor"] = false ∧
    containsAny (cleanDescription "x") ["restaurant", "hotel", "dining", "dinner"] = false ∧
    containsAny (cleanDescription "x") ["clothes", "shoes", "shopping", "mall"] = false ∧
    containsAny (cleanDescription "x") ["bill", "recharge", "internet", "mobile"] = false ∧
    categorizeByAmount (cleanDescription "x") 300 = none ∧
    categorizeByAmount (cleanDescription "x") 1000 = none := by
  decide

/-- C8 (amended): only three of the five amount bins carry an explicit
default category — `< 100` defaults to Food, `[2000,10000)` to Shopping and
`≥ 10000` to Bills; the bins `[100,500)` and `[500,2000)` produce no
category when none of their listed substrings matches.  Whenever the stage
produces a category while the keyword confidence is below 0.5 (and the
earlier high-confidence short-circuits did not fire), `smart_categorize`
returns it with fixed confidence 0.6. -/
theorem C8_amount_bin_defaults :
    (∀ (desc : List Char) (a : ℚ), 0 < a → a < 100 →
      containsAny desc ["coffee", "tea", "snack", "chai", "juice", "water"] = false →
      containsAny desc ["auto", "bus", "metro", "parking", "toll"] = false →
      categorizeByAmount desc a = some "Food") ∧
    (∀ (desc : List Char) (a : ℚ), 100 ≤ a → a < 500 →
      containsAny desc ["movie", "game", "ticket", "entertainment"] = false →
      containsAny desc ["uber", "ola", "taxi", "fuel", "petrol"] = false →
      containsAny desc ["medicine", "pharmacy", "doctor"] = false →
      categorizeByAmount desc a = none) ∧
    (∀ (desc : List Char) (a : ℚ), 500 ≤ a → a < 2000 →
      containsAny desc ["restaurant", "hotel", "dining", "dinner"] = false →
      containsAny desc ["clothes", "shoes", "shopping", "mall"] = false →
      containsAny desc ["bill", "recharge", "internet", "mobile"] = false →
      categorizeByAmount desc a = none) ∧
    (∀ (desc : List Char) (a : ℚ), 2000 ≤ a → a < 10000 →
      containsAny desc ["rent", "maintenance", "electricity", "insurance"] = false →
      containsAny desc ["laptop", "phone", "tv", "electronics", "appliance"] = false →
      containsAny desc ["hospital", "surgery", "treatment", "medical"] = false →
      categorizeByAmount desc a = some "Shopping") ∧
    (∀ (desc : List Char) (a : ℚ), 10000 ≤ a →
      containsAny desc ["rent", "emi", "loan", "insurance"] = false →
      containsAny desc ["laptop", "mobile", "car", "bike", "gold", "investment"] = false →
      categorizeByAmount desc a = some "Bills") ∧
    (∀ (s : String) (a : ℚ) (c : String), (cleanDescription s).isEmpty = false →
      (categorizeByEnhancedRules (cleanDescription s)).2 < 1/2 →
      (categorizeByPatterns (cleanDescription s)).2 ≤ 4/5 →
      categorizeByAmount (cleanDescription s) a = some c →
      smartCategorize s a = (c, 3/5)) := by
  refine ⟨?_, ?_, ?_, ?_, ?_, ?_⟩
  · intro desc a h0 h1 hg1 hg2
    unfold categorizeByAmount
    rw [if_neg (not_le.mpr h0), if_pos h1]
    simp [hg1, hg2]
  · intro desc a h0 h1 hg1 hg2 hg3
    unfold categorizeByAmount
    rw [if_neg (by linarith : ¬ a ≤ 0), if_neg (by linarith : ¬ a < 100), if_pos h1]
    simp [hg1, hg2, hg3]
  · intro desc a h0 h1 hg1 hg2 hg3
    unfold categorizeByAmount
    rw [if_neg (by linarith : ¬ a ≤ 0), if_neg (by linarith : ¬ a < 100),
        if_neg (by linarith : ¬ a < 500), if_pos h1]
    simp [hg1, hg2, hg3]
  · intro desc a h0 h1 hg1 hg2 hg3
    unfold categorizeByAmount
    rw [if_neg (by linarith : ¬ a ≤ 0), if_neg (by linarith : ¬ a < 100),
        if_neg (by linarith : ¬ a < 500), if_neg (by linarith : ¬ a < 2000), if_pos h1]
    simp [hg1, hg2, hg3]
  · intro desc a h0 hg1 hg2
    unfold categorizeByAmount
    rw [if_neg (by linarith : ¬ a ≤ 0), if_neg (by linarith : ¬ a < 100),
        if_neg (by linarith : ¬ a < 500), if_neg (by linarith : ¬ a < 2000),
        if_neg (by linarith : ¬ a < 10000)]
    simp [hg1, hg2]
  · intro s a c h0 hr hp hamt
    simp only [smartCategorize]
    rw [h0]
    simp only [Bool.false_eq_true, if_false, hamt]
    rw [if_neg (by linarith :
          ¬ (7:ℚ)/10 < (categorizeByEnhancedRules (cleanDescription s)).2),
        if_neg (not_lt.mpr hp), if_pos hr]

/-- Witness for C8 (amended): amount 50 with the unmatched description "x"
falls into the first bin and defaults to Food, and `smart_categorize`
returns it with confidence 0.6. -/
theorem C8_amount_bin_defaults_witness :
    ((0:ℚ) < 50 ∧ (50:ℚ) < 100) ∧
    categorizeByAmount (cleanDescription "x") 50 = some "Food" ∧
    smartCategorize "x" 50 = ("Food", 3/5) := by
  have hamt : categorizeByAmount (cleanDescription "x") 50 = some "Food" :=
    C8_amount_bin_defaults.1 (cleanDescription "x") 50 (by norm_num) (by norm_num)
      (by decide) (by decide)
  have hz : ∀ e ∈ categoryKeywords, categoryConfidence (cleanDescription "x") e.2 = 0 := by
    intro e he
    fin_cases he <;> exact categoryConfidence_eq_zero _ _ (by decide)
  have hrx : categorizeByEnhancedRules (cleanDescription "x") = ("Other", 0) := by
    simp only [categorizeByEnhancedRules]
    rw [bestKeywordCategory_zeros _ _ _ hz le_rfl]
    simp [min_eq_left (show (0:ℚ) ≤ 1 by norm_num)]
  refine ⟨⟨by norm_num, by norm_num⟩, hamt, ?_⟩
  refine C8_amount_bin_defaults.2.2.2.2.2 "x" 50 "Food" (by decide) ?_ ?_ hamt
  · rw [hrx]; norm_num
  · rw [(by decide : categorizeByPatterns (cleanDescription "x") = ("Other", 0))]
    norm_num

/-! ## The insight engine (`financial_ai.py`, class FinancialAI) -/

/-! ### Statistics helpers (pandas aggregation semantics in exact rationals) -/

def insertQ (x : ℚ) : List ℚ → List ℚ
  | [] => [x]
  | y :: ys => if x ≤ y then x :: y :: ys else y :: insertQ x ys

/-- Ascending sort of rational values. -/
def sortQ : List ℚ → List ℚ
  | [] => []
  | x :: xs => insertQ x (sortQ xs)

/-- Arithmetic mean.  Call sites only use it on non-empty lists (pandas
returns NaN on an empty selection: those sites go through `meanOpt`). -/
def meanQ (l : List ℚ) : ℚ := l.sum / (l.length : ℚ)

/-- Mean that models the NaN of pandas on an empty selection as `none`. -/
def meanOpt (l : List ℚ) : Option ℚ := if l.isEmpty then none else some (meanQ l)

/-- pandas `Series.median`: midpoint of the sorted values. -/
def medianQ (l : List ℚ) : ℚ :=
  let s := sortQ l
  if s.length % 2 = 1 then s.getD (s.length / 2) 0
  else (s.getD (s.length / 2 - 1) 0 + s.getD (s.length / 2) 0) / 2

def maxQ : List ℚ → ℚ
  | [] => 0
  | x :: xs => xs.foldl max x

def minQ : List ℚ → ℚ
  | [] => 0
  | x :: xs => xs.foldl min x

/-- Sample variance with one delta degree of freedom, as pandas `Series.std`
squares it; meaningful only for two or more values. -/
def sampleVar (l : List ℚ) : ℚ :=
  ((l.map (fun x => (x - meanQ l) ^ 2)).sum) / ((l.length : ℚ) - 1)

/-- pandas `Series.std` (ddof = 1): `none` models the NaN returned on fewer
than two values; otherwise the floating-point square root — abstracted by
the parameter `fsqrt` — of the exact sample variance. -/
def sampleStd (fsqrt : ℚ → ℚ) (l : List ℚ) : Option ℚ :=
  if 2 ≤ l.length then some (fsqrt (sampleVar l)) else none

/-- pandas `Series.quantile` with the default linear interpolation:
`h = (n-1)q`, result `x[⌊h⌋] + (h-⌊h⌋)(x[⌊h⌋+1] - x[⌊h⌋])` over the sorted
values.  Call sites guarantee a non-empty list. -/
def quantileQ (q : ℚ) (l : List ℚ) : ℚ :=
  let s := sortQ l
  let n := s.length
  let h : ℚ := ((n : ℚ) - 1) * q
  let i : ℕ := (Rat.floor h).toNat
  let lo := s.getD i 0
  if i + 1 < n then lo + (h - (i : ℚ)) * (s.getD (i + 1) 0 - lo) else lo

/-! ### Records and `_prepare_dataframe` -/

/-- A raw expense dict as handed to `analyze_spending_patterns`.  The
`Option` fields model the `errors="coerce"` conversions of
`_prepare_dataframe`: `none` is an uncoercible date (NaT) or amount (NaN). -/
structure RawRecord where
  date : Option ℕ
  amount : Option ℚ
  category : String
  description : String
deriving DecidableEq

/-- A row that survives `_prepare_dataframe` filtering. -/
structure VRecord where
  date : ℕ
  amount : ℚ
  category : String
  description : String
deriving DecidableEq

def toValid (r : RawRecord) : Option VRecord :=
  match r.date, r.amount with
  | some d, some a => if 0 < a then some ⟨d, a, r.category, r.description⟩ else none
  | _, _ => none

def insertByDate (r : VRecord) : List VRecord → List VRecord
  | [] => [r]
  | x :: xs => if r.date ≤ x.date then r :: x :: xs else x :: insertByDate r xs

def sortByDate : List VRecord → List VRecord
  | [] => []
  | r :: rs => insertByDate r (sortByDate rs)

/-- Model of `_prepare_dataframe`: drop rows whose date does not parse (`dropna`) or
whose amount is not a positive number, then sort by date
(`df.sort_values("date")`; the relative order of equal dates is left
unspecified by the pandas quicksort and affects no modelled field).  The
derived helper columns of the source (`year`, `month`, `day_of_month`, ...)
are recomputed on demand from the date code. -/
def prepareDataframe (rs : List RawRecord) : List VRecord :=
  sortByDate (rs.filterMap toValid)

def insertNatSorted (n : ℕ) : List ℕ → List ℕ
  | [] => [n]
  | x :: xs =>
    if n < x then n :: x :: xs else if n = x then x :: xs else x :: insertNatSorted n xs

/-- The distinct values of a key column in ascending order (pandas `groupby`
sorts its group keys). -/
def sortedDistinct : List ℕ → List ℕ
  | [] => []
  | n :: rest => insertNatSorted n (sortedDistinct rest)

def dayOfMonth (d : ℕ) : ℕ := d % 100

/-- Model of `df.groupby(date)["amount"].sum()`: per-calendar-day
totals, keyed by date in ascending order. -/
def dailyTotalsWithDates (df : List VRecord) : List (ℕ × ℚ) :=
  (sortedDistinct (df.map VRecord.date)).map
    (fun d => (d, ((df.filter (fun r => decide (r.date = d))).map VRecord.amount).sum))

def dailyTotals (df : List VRecord) : List ℚ :=
  (dailyTotalsWithDates df).map Prod.snd

/-- The distinct categories of the frame (`df["category"].unique()` /
`groupby("category")` index).  pandas sorts group keys; the key order
affects no modelled field, so a duplicate-free list suffices. -/
def distinctCats (df : List VRecord) : List String := (df.map VRecord.category).dedup

/-! ### `_calculate_spending_summary` -/

structure SpendingSummary where
  totalSpending : ℚ
  averageDaily : ℚ
  medianDaily : ℚ
  maxDaily : ℚ
  minDaily : ℚ
  stdDaily : Option ℚ
  averageTransaction : ℚ
  medianTransaction : ℚ
  largestTransaction : ℚ
  smallestTransaction : ℚ
  totalTransactions : ℕ
  spendingDays : ℕ
  zeroSpendingDays : ℕ
deriving DecidableEq

def calculateSpendingSummary (fsqrt : ℚ → ℚ) (df : List VRecord) : SpendingSummary :=
  let amounts := df.map VRecord.amount
  let daily := dailyTotals df
  { totalSpending := amounts.sum
    averageDaily := meanQ daily
    medianDaily := medianQ daily
    maxDaily := maxQ daily
    minDaily := minQ daily
    stdDaily := sampleStd fsqrt daily
    averageTransaction := meanQ amounts
    medianTransaction := medianQ amounts
    largestTransaction := maxQ amounts
    smallestTransaction := minQ amounts
    totalTransactions := df.length
    spendingDays := daily.length
    zeroSpendingDays :=
      if daily.any (fun x => decide (x = 0)) then daily.countP (fun x => decide (x = 0)) else 0 }

/-! ### `_analyze_categories` -/

/-- numpy/pandas `.round(2)` (round half to even at two decimals). -/
def roundHalfEven (x : ℚ) : ℤ :=
  let n := Rat.floor x
  let r := x - (n : ℚ)
  if r < 1/2 then n else if 1/2 < r then n + 1 else if n % 2 = 0 then n else n + 1

def round2 (x : ℚ) : ℚ := ((roundHalfEven (x * 100) : ℤ) : ℚ) / 100

structure CategoryStats where
  category : String
  totalSpent : ℚ
  averageTransaction : ℚ
  transactionCount : ℕ
  percentageOfTotal : ℚ
  consistency : ℚ
deriving DecidableEq

/-- Model of `_calculate_simple_trend`: `(values[-1] - values[0]) / len(values)`,
0 on fewer than two values. -/
def calcSimpleTrend (vals : List ℚ) : ℚ :=
  if vals.length < 2 then 0
  else ((vals.getLast?).getD 0 - vals.headD 0) / (vals.length : ℚ)

/-- The `category_insights` value (the `top_categories` ranking is not referenced by
any claim and is omitted; it is a further pure function of the same
per-category sums). -/
structure CategoryAnalysis where
  detailedAnalysis : List CategoryStats
  categoryTrends : List (String × ℚ)
  diversityScore : ℚ
deriving DecidableEq

def analyzeCategories (fsqrt : ℚ → ℚ) (df : List VRecord) : CategoryAnalysis :=
  let total := (df.map VRecord.amount).sum
  let cats := distinctCats df
  { detailedAnalysis := cats.map (fun c =>
      let xs := (df.filter (fun r => decide (r.category = c))).map VRecord.amount
      let std0 : ℚ := (sampleStd fsqrt xs).getD 0
      { category := c
        totalSpent := xs.sum
        averageTransaction := meanQ xs
        transactionCount := xs.length
        percentageOfTotal := round2 (xs.sum / total * 100)
        consistency := if 0 < std0 then 1 / (1 + std0) else 1 })
    categoryTrends := (cats.filter (fun c =>
        decide (3 ≤ (df.filter (fun r => decide (r.category = c))).length))).filterMap
      (fun c =>
        let dc := dailyTotals (df.filter (fun r => decide (r.category = c)))
        if 3 ≤ dc.length then some (c, calcSimpleTrend dc) else none)
    diversityScore := ((cats.length : ℚ) / (df.length : ℚ)) * 100 }

/-! ### `_analyze_behavioral_patterns` -/

inductive PaydayPattern
  | notDetected
  | detected (earlyAvg restAvg earlyToRest : ℚ)
deriving DecidableEq

/-- Model of `_detect_payday_pattern`: mean amount on days ≤ 5 of the month versus
the rest; a NaN mean (empty side) makes the Python `>` comparison false. -/
def detectPaydayPattern (df : List VRecord) : PaydayPattern :=
  let early := meanOpt ((df.filter (fun r => decide (dayOfMonth r.date ≤ 5))).map VRecord.amount)
  let rest := meanOpt ((df.filter (fun r => decide (5 < dayOfMonth r.date))).map VRecord.amount)
  match early, rest with
  | some e, some r =>
    if r * (13/10) < e then .detected e r (if 0 < r then e / r else 0) else .notDetected
  | _, _ => .notDetected

structure MonthlyCycle where
  earlyMonthAvg : ℚ
  midMonthAvg : ℚ
  lateMonthAvg : Option ℚ
  payday : PaydayPattern
deriving DecidableEq

/-- Model of `df.groupby("day_of_month")["amount"].mean()`: the per-day-of-month mean
transaction amounts, listed by ascending day-of-month key; the `iloc`
slicing of `monthly_cycle` below is positional in this list. -/
def dayOfMonthMeans (df : List VRecord) : List ℚ :=
  (sortedDistinct (df.map (fun r => dayOfMonth r.date))).map
    (fun d => meanQ ((df.filter (fun r => decide (dayOfMonth r.date = d))).map VRecord.amount))

/-- Model of `monthly_cycle`: `early = iloc[:10]`, `mid = iloc[10:20]`,
`late = iloc[20:]` of the day-of-month group means, each behind its length
guard; with exactly 20 groups `iloc[20:]` is empty and its mean is NaN
(`none`). -/
def monthlyCycleOf (df : List VRecord) : MonthlyCycle :=
  let ms := dayOfMonthMeans df
  { earlyMonthAvg := if 10 ≤ ms.length then meanQ (ms.take 10) else 0
    midMonthAvg := if 20 ≤ ms.length then meanQ ((ms.drop 10).take 10) else 0
    lateMonthAvg := if 20 ≤ ms.length then meanOpt (ms.drop 20) else some 0
    payday := detectPaydayPattern df }

structure BurstStats where
  highSpendingDaysCount : ℕ
  averageBurstAmount : ℚ
  burstFrequency : ℚ
deriving DecidableEq

/-- Model of `spending_bursts`: days above the 0.8 daily-total quantile. -/
def spendingBursts (df : List VRecord) : BurstStats :=
  let daily := dailyTotals df
  let thr := quantileQ (4/5) daily
  let high := daily.filter (fun x => decide (thr < x))
  { highSpendingDaysCount := high.length
    averageBurstAmount := if high.isEmpty then 0 else meanQ high
    burstFrequency :=
      if daily.isEmpty then 0 else ((high.length : ℚ) / (daily.length : ℚ)) * 100 }

/-- Model of `_calculate_regularity_score` (NaN values flow through as `none`, as in
the `spending_consistency` dict of the source). -/
def regularityScore (fsqrt : ℚ → ℚ) (daily : List ℚ) : Option ℚ :=
  if daily.length < 7 then some 0
  else
    let sdays := daily.filter (fun x => decide (0 < x))
    let reg : ℚ := (sdays.length : ℚ) / (daily.length : ℚ)
    if 0 < sdays.length then
      let cv : Option ℚ :=
        if 0 < meanQ sdays then (sampleStd fsqrt sdays).map (fun s => s / meanQ sdays)
        else some 0
      cv.map (fun c => (reg + 1 / (1 + c)) / 2)
    else some reg

structure ConsistencyStats where
  coefficientOfVariation : Option ℚ
  regularSpenderScore : Option ℚ
deriving DecidableEq

def consistencyStats (fsqrt : ℚ → ℚ) (df : List VRecord) : ConsistencyStats :=
  let daily := dailyTotals df
  { coefficientOfVariation :=
      if 0 < meanQ daily then (sampleStd fsqrt daily).map (fun s => s / meanQ daily)
      else some 0
    regularSpenderScore := regularityScore fsqrt daily }

structure BehavioralPatterns where
  monthlyCycle : MonthlyCycle
  bursts : BurstStats
  consistency : ConsistencyStats
deriving DecidableEq

def analyzeBehavioralPatterns (fsqrt : ℚ → ℚ) (df : List VRecord) : BehavioralPatterns :=
  { monthlyCycle := monthlyCycleOf df
    bursts := spendingBursts df
    consistency := consistencyStats fsqrt df }

/-! ### `_detect_spending_anomalies` -/

/-- A `category_anomalies` entry.  The source formats the expected range as
the string `f"{mean-std:.0f} - {mean+std:.0f}"`; the two bounds are kept
unformatted here. -/
structure CatAnomaly where
  date : ℕ
  category : String
  amount : ℚ
  expectedLow : ℚ
  expectedHigh : ℚ
deriving DecidableEq

structure TransactionOutlierStats where
  highValueTransactions : ℕ
  unusualHighAmounts : List VRecord
  thresholdHigh : ℚ
  largestTransaction : Option VRecord
deriving DecidableEq

inductive AnomalyReport
  | insufficientData
  | found (txn : TransactionOutlierStats) (unusualDays : Option (ℕ × List (ℕ × ℚ)))
      (categoryAnomalies : List CatAnomaly)
deriving DecidableEq

/-- The `high_outliers` frame of `_detect_spending_anomalies`: transactions
strictly above `Q3 + 1.5*IQR` of the transaction-amount distribution. -/
def highOutliers (df : List VRecord) : List VRecord :=
  df.filter (fun r =>
    decide (quantileQ (3/4) (df.map VRecord.amount)
      + (3/2) * (quantileQ (3/4) (df.map VRecord.amount)
                  - quantileQ (1/4) (df.map VRecord.amount)) < r.amount))

/-- The `low_outliers` local of `_detect_spending_anomalies`: transactions
strictly below `Q1 - 1.5*IQR`.  (Computed by the source but never placed in
the returned dict.) -/
def lowOutliers (df : List VRecord) : List VRecord :=
  df.filter (fun r =>
    decide (r.amount < quantileQ (1/4) (df.map VRecord.amount)
      - (3/2) * (quantileQ (3/4) (df.map VRecord.amount)
                  - quantileQ (1/4) (df.map VRecord.amount))))

def detectSpendingAnomalies (fsqrt : ℚ → ℚ) (df : List VRecord) : AnomalyReport :=
  if df.length < 5 then .insufficientData
  else
    let amounts := df.map VRecord.amount
    let q1 := quantileQ (1/4) amounts
    let q3 := quantileQ (3/4) amounts
    let thrHigh := q3 + (3/2) * (q3 - q1)
    let high := highOutliers df
    let txn : TransactionOutlierStats :=
      { highValueTransactions := high.length
        unusualHighAmounts := if high.length ≤ 5 then high else []
        thresholdHigh := thrHigh
        largestTransaction := df.find? (fun r => decide (r.amount = maxQ amounts)) }
    let daily := dailyTotalsWithDates df
    let dailyVals := daily.map Prod.snd
    let unusualDays : Option (ℕ × List (ℕ × ℚ)) :=
      match sampleStd fsqrt dailyVals with
      | some s =>
        if 0 < s then
          let ud := daily.filter (fun p => decide (2 * s < |p.2 - meanQ dailyVals|))
          some (ud.length, ud)
        else none
      | none => none
    let catAnoms : List CatAnomaly :=
      (df.filterMap (fun r =>
        let xs := (df.filter (fun x => decide (x.category = r.category))).map VRecord.amount
        match sampleStd fsqrt xs with
        | some s =>
          if 0 < s ∧ 2 * s < |r.amount - meanQ xs| then
            some ⟨r.date, r.category, r.amount, meanQ xs - s, meanQ xs + s⟩
          else none
        | none => none)).take 5
    .found txn unusualDays catAnoms

/-! ### `_assess_financial_health` -/

structure FinancialHealth where
  overallScore : ℚ
  status : String
deriving DecidableEq

def lastN (n : ℕ) (l : List ℚ) : List ℚ := l.drop (l.length - n)

/-- The `consistency_score` of `_assess_financial_health`:
`max(0, 30 - cv*10)` with `cv = std/mean` of the daily totals.  pandas std
of a single spending day is NaN, and Python `max(0, 30 - nan*10)` evaluates
to 0 — the `none` branch. -/
def healthConsistencyScore (fsqrt : ℚ → ℚ) (df : List VRecord) : ℚ :=
  match sampleStd fsqrt (dailyTotals df) with
  | some s =>
    max 0 (30 - (if 0 < meanQ (dailyTotals df) then s / meanQ (dailyTotals df) else 0) * 10)
  | none => 0

/-- The diversification component `diversity_score = min(20, category_diversity * 3)`. -/
def healthDiversityScore (df : List VRecord) : ℚ :=
  min 20 (((distinctCats df).length : ℚ) * 3)

/-- The trend penalty: applied only with at least 7 spending days, from the
simple trend of the last 7 daily totals. -/
def healthTrendPenalty (df : List VRecord) : ℚ :=
  if 7 ≤ (dailyTotals df).length then
    if 1/10 < calcSimpleTrend (lastN 7 (dailyTotals df)) then 15
    else if calcSimpleTrend (lastN 7 (dailyTotals df)) < -(1/10) then 0
    else 5
  else 0

/-- The IQR-outlier transactions of the health assessment (both fences). -/
def healthOutliers (df : List VRecord) : List VRecord :=
  df.filter (fun r =>
    decide (r.amount < quantileQ (1/4) (df.map VRecord.amount)
      - (3/2) * (quantileQ (3/4) (df.map VRecord.amount)
                  - quantileQ (1/4) (df.map VRecord.amount)))
    || decide (quantileQ (3/4) (df.map VRecord.amount)
      + (3/2) * (quantileQ (3/4) (df.map VRecord.amount)
                  - quantileQ (1/4) (df.map VRecord.amount)) < r.amount))

/-- The discipline component `outlier_penalty = min(25, outlier_percentage * 2.5)`. -/
def healthOutlierPenalty (df : List VRecord) : ℚ :=
  min 25 ((((healthOutliers df).length : ℚ) / (df.length : ℚ)) * 100 * (5/2))

/-- The running `health_score` before clamping: 100 minus the four weighted
deductions. -/
def healthScoreRaw (fsqrt : ℚ → ℚ) (df : List VRecord) : ℚ :=
  100 - (30 - healthConsistencyScore fsqrt df) - (20 - healthDiversityScore df)
    - healthTrendPenalty df - healthOutlierPenalty df

/-- Model of `_assess_financial_health`: the reported score is the clamp
`max(0, min(100, health_score))`; the status buckets are computed from the
unclamped `health_score`, exactly as in the source. -/
def assessFinancialHealth (fsqrt : ℚ → ℚ) (df : List VRecord) : FinancialHealth :=
  if df.isEmpty then { overallScore := 0, status := "insufficient_data" }
  else
    { overallScore := max 0 (min 100 (healthScoreRaw fsqrt df))
      status :=
        if 85 ≤ healthScoreRaw fsqrt df then "excellent"
        else if 70 ≤ healthScoreRaw fsqrt df then "good"
        else if 55 ≤ healthScoreRaw fsqrt df then "fair"
        else "needs_improvement" }

/-! ### `analyze_spending_patterns` -/

/-- The modelled report.  The `data_period`, `spending_trends`,
`predictions`, `recommendations` and `goals_tracking` sub-dicts are not
referenced by any claim and are omitted; each is a further pure function of
the same prepared frame (plus, for `analysis_date` only, the wall clock,
kept as the `now` parameter). -/
structure InsightsReport where
  status : String
  message : String := ""
  analysisDate : String := ""
  spendingSummary : Option SpendingSummary := none
  categoryInsights : Option CategoryAnalysis := none
  behavioralPatterns : Option BehavioralPatterns := none
  anomalies : Option AnomalyReport := none
  financialHealth : Option FinancialHealth := none
deriving DecidableEq

/-- The body of the `try:` block of `analyze_spending_patterns`.  The
modelled sub-computations are total, but the body is typed in `Except` so
that the `except Exception` handler of the source can be stated for an
arbitrary, possibly faulting, body (claim C7). -/
def analyzeBody (fsqrt : ℚ → ℚ) (now : String) (rs : List RawRecord) :
    Except String InsightsReport :=
  let df := prepareDataframe rs
  if df.isEmpty then .ok { status := "no_valid_data" }
  else .ok
    { status := "success"
      analysisDate := now
      spendingSummary := some (calculateSpendingSummary fsqrt df)
      categoryInsights := some (analyzeCategories fsqrt df)
      behavioralPatterns := some (analyzeBehavioralPatterns fsqrt df)
      anomalies := some (detectSpendingAnomalies fsqrt df)
      financialHealth := some (assessFinancialHealth fsqrt df) }

/-- The `analyze_spending_patterns` skeleton: empty input short-circuits to
`insufficient_data` before the `try:`; otherwise the body runs under the
handler, which turns any fault `e` into
the error dict with message "Analysis failed: " followed by the fault text. -/
def analyzeWith (body : List RawRecord → Except String InsightsReport)
    (rs : List RawRecord) : InsightsReport :=
  if rs.isEmpty then
    { status := "insufficient_data"
      message := "Need at least some expenses for analysis" }
  else
    match body rs with
    | .ok r => r
    | .error e => { status := "error", message := "Analysis failed: " ++ e }

def analyzeSpendingPatterns (fsqrt : ℚ → ℚ) (now : String) (rs : List RawRecord) :
    InsightsReport :=
  analyzeWith (analyzeBody fsqrt now) rs

/-! ### Skeleton lemmas for `analyze_spending_patterns` -/

lemma analyze_success_eq (fsqrt : ℚ → ℚ) (now : String) (rs : List RawRecord)
    (h1 : rs ≠ []) (h2 : prepareDataframe rs ≠ []) :
    analyzeSpendingPatterns fsqrt now rs =
      { status := "success"
        analysisDate := now
        spendingSummary := some (calculateSpendingSummary fsqrt (prepareDataframe rs))
        categoryInsights := some (analyzeCategories fsqrt (prepareDataframe rs))
        behavioralPatterns := some (analyzeBehavioralPatterns fsqrt (prepareDataframe rs))
        anomalies := some (detectSpendingAnomalies fsqrt (prepareDataframe rs))
        financialHealth := some (assessFinancialHealth fsqrt (prepareDataframe rs)) } := by
  cases rs with
  | nil => exact absurd rfl h1
  | cons r rest =>
    unfold analyzeSpendingPatterns analyzeWith analyzeBody
    rcases hdf : prepareDataframe (r :: rest) with _ | ⟨x, xs⟩
    · exact absurd hdf h2
    · simp [hdf]

lemma status_success_elim (fsqrt : ℚ → ℚ) (now : String) (rs : List RawRecord)
    (h : (analyzeSpendingPatterns fsqrt now rs).status = "success") :
    rs ≠ [] ∧ prepareDataframe rs ≠ [] := by
  constructor
  · intro h0
    subst h0
    simp [analyzeSpendingPatterns, analyzeWith] at h
  · intro h0
    cases rs with
    | nil => simp [analyzeSpendingPatterns, analyzeWith] at h
    | cons r rest =>
      unfold analyzeSpendingPatterns analyzeWith analyzeBody at h
      simp [h0] at h

/-! ### Claim C2 -/

/-- C2: `analyze` fails softly — the status of the report is `insufficient_data`
exactly when the input list is empty, `no_valid_data` exactly when the input
is non-empty but the date/amount filtering removes every record, and
`success` otherwise. -/
theorem C2_soft_failure_statuses (fsqrt : ℚ → ℚ) (now : String) (rs : List RawRecord) :
    ((analyzeSpendingPatterns fsqrt now rs).status = "insufficient_data" ↔ rs = []) ∧
    ((analyzeSpendingPatterns fsqrt now rs).status = "no_valid_data" ↔
      (rs ≠ [] ∧ prepareDataframe rs = [])) ∧
    ((analyzeSpendingPatterns fsqrt now rs).status = "success" ↔
      (rs ≠ [] ∧ prepareDataframe rs ≠ [])) := by
  unfold analyzeSpendingPatterns analyzeWith analyzeBody
  cases rs with
  | nil => simp [prepareDataframe]
  | cons r rest =>
    rcases hdf : prepareDataframe (r :: rest) with _ | ⟨x, xs⟩ <;> simp [hdf]

/-! ### Claim C6 -/

/-- C6: `analyze` is deterministic on its data-derived outputs — the
wall-clock reading (the `analysis_date` field) is the only input that can
differ between two calls on an identical record list, and the summary
statistics (and the status) do not depend on it. -/
theorem C6_deterministic_summary (fsqrt : ℚ → ℚ) (now1 now2 : String) (rs : List RawRecord) :
    (analyzeSpendingPatterns fsqrt now1 rs).spendingSummary
      = (analyzeSpendingPatterns fsqrt now2 rs).spendingSummary ∧
    (analyzeSpendingPatterns fsqrt now1 rs).status
      = (analyzeSpendingPatterns fsqrt now2 rs).status := by
  unfold analyzeSpendingPatterns analyzeWith analyzeBody
  cases rs with
  | nil => exact ⟨rfl, rfl⟩
  | cons r rest =>
    rcases hdf : prepareDataframe (r :: rest) with _ | ⟨x, xs⟩ <;> simp [hdf]

/-! ### Claim C7 -/

/-- C7: `analyze` never propagates a runtime fault of its body: for every
(possibly faulting) body and non-empty input on which the body faults with
message `e`, the handler returns the report
the report with status "error" and message "Analysis failed: " followed by the fault text instead of
raising. -/
theorem C7_fault_becomes_error_report
    (body : List RawRecord → Except String InsightsReport)
    (rs : List RawRecord) (e : String) (hne : rs ≠ []) (hb : body rs = .error e) :
    analyzeWith body rs = { status := "error", message := "Analysis failed: " ++ e } := by
  unfold analyzeWith
  cases rs with
  | nil => exact absurd rfl hne
  | cons r rest => simp [hb]

/-- Witness for C7: a body that faults with "boom" on a concrete singleton
input yields the error report. -/
theorem C7_fault_becomes_error_report_witness :
    ([({ date := some 20240101, amount := some 10, category := "Food",
         description := "" } : RawRecord)] ≠ ([] : List RawRecord)) ∧
    analyzeWith (fun _ => .error "boom")
        [{ date := some 20240101, amount := some 10, category := "Food", description := "" }]
      = { status := "error", message := "Analysis failed: " ++ "boom" } :=
  ⟨by decide,
   C7_fault_becomes_error_report (fun _ => .error "boom") _ "boom" (by decide) rfl⟩

/-! ### Claim C3 -/

lemma sum_map_filter_add (l : List VRecord) (p : VRecord → Bool) :
    (((l.filter p).map VRecord.amount).sum)
      + (((l.filter (fun r => ! p r)).map VRecord.amount).sum)
      = (l.map VRecord.amount).sum := by
  induction l with
  | nil => simp
  | cons r rest ih =>
    by_cases h : p r
    · simp [List.filter_cons, h]
      linarith
    · simp [List.filter_cons, h]
      linarith

lemma filter_filter_ne (l : List VRecord) (c cp : String) (h : cp ≠ c) :
    ((l.filter (fun r => ! decide (r.category = c))).filter
        (fun r => decide (r.category = cp)))
      = l.filter (fun r => decide (r.category = cp)) := by
  induction l with
  | nil => rfl
  | cons r rest ih =>
    have hcc : c ≠ cp := fun e => h e.symm
    by_cases hc : r.category = c
    · have hcp : ¬ r.category = cp := fun e => h (e.symm.trans hc)
      simp [List.filter_cons, hc, hcp, hcc, h, ih]
    · by_cases hcp : r.category = cp
      · simp [List.filter_cons, hc, hcp, hcc, h, ih]
      · simp [List.filter_cons, hc, hcp, hcc, h, ih]

/-- Fibre decomposition of the total: summing the per-category totals over
any duplicate-free list of categories covering the frame gives the overall
total. -/
lemma sum_by_categories (l : List VRecord) (cs : List String) (hnd : cs.Nodup)
    (hcov : ∀ r ∈ l, r.category ∈ cs) :
    (cs.map (fun c =>
      ((l.filter (fun r => decide (r.category = c))).map VRecord.amount).sum)).sum
      = (l.map VRecord.amount).sum := by
  induction cs generalizing l with
  | nil =>
    cases l with
    | nil => simp
    | cons r rest => exact absurd (hcov r (by simp)) (by simp)
  | cons c cs ih =>
    rw [List.map_cons, List.sum_cons]
    have hnd' := List.nodup_cons.mp hnd
    have hcov' : ∀ r ∈ l.filter (fun r => ! decide (r.category = c)), r.category ∈ cs := by
      intro r hr
      rw [List.mem_filter] at hr
      rcases List.mem_cons.mp (hcov r hr.1) with heq | hmem
      · exfalso
        have hne := hr.2
        simp [heq] at hne
      · exact hmem
    have hrec := ih (l.filter (fun r => ! decide (r.category = c))) hnd'.2 hcov'
    have hmap : cs.map (fun cp =>
          ((l.filter (fun r => decide (r.category = cp))).map VRecord.amount).sum)
        = cs.map (fun cp =>
          (((l.filter (fun r => ! decide (r.category = c))).filter
              (fun r => decide (r.category = cp))).map VRecord.amount).sum) := by
      apply List.map_congr_left
      intro cp hcp
      rw [filter_filter_ne l c cp (fun e => hnd'.1 (e ▸ hcp))]
    rw [hmap, hrec]
    exact sum_map_filter_add l _

lemma detailed_map_totalSpent (fsqrt : ℚ → ℚ) (df : List VRecord) :
    ((analyzeCategories fsqrt df).detailedAnalysis.map CategoryStats.totalSpent)
      = (distinctCats df).map (fun c =>
          ((df.filter (fun r => decide (r.category = c))).map VRecord.amount).sum) := by
  simp only [analyzeCategories, List.map_map]
  rfl

/-- C3: on every record set that `analyze` reports success on, the sum over
the per-category `total_spent` values equals the `total_spending` of the summary
(exactly, in rational arithmetic — the floating-point statement holds within
tolerance a fortiori). -/
theorem C3_category_totals_partition (fsqrt : ℚ → ℚ) (now : String) (rs : List RawRecord)
    (h : (analyzeSpendingPatterns fsqrt now rs).status = "success") :
    (analyzeSpendingPatterns fsqrt now rs).spendingSummary
      = some (calculateSpendingSummary fsqrt (prepareDataframe rs)) ∧
    (analyzeSpendingPatterns fsqrt now rs).categoryInsights
      = some (analyzeCategories fsqrt (prepareDataframe rs)) ∧
    ((analyzeCategories fsqrt (prepareDataframe rs)).detailedAnalysis.map
        CategoryStats.totalSpent).sum
      = (calculateSpendingSummary fsqrt (prepareDataframe rs)).totalSpending := by
  obtain ⟨h1, h2⟩ := status_success_elim fsqrt now rs h
  refine ⟨by rw [analyze_success_eq fsqrt now rs h1 h2],
          by rw [analyze_success_eq fsqrt now rs h1 h2], ?_⟩
  rw [detailed_map_totalSpent]
  rw [show (calculateSpendingSummary fsqrt (prepareDataframe rs)).totalSpending
      = ((prepareDataframe rs).map VRecord.amount).sum from rfl]
  exact sum_by_categories _ _ (List.nodup_dedup _)
    (fun r hr => List.mem_dedup.mpr (List.mem_map_of_mem _ hr))

/-- The three-record scenario of the specification, used as witness input. -/
def w3 : List RawRecord :=
  [{ date := some 20240101, amount := some 500, category := "Food",
     description := "Grocery shopping" },
   { date := some 20240102, amount := some 200, category := "Transportation",
     description := "Metro card" },
   { date := some 20240103, amount := some 1500, category := "Shopping",
     description := "New clothes" }]

/-- Witness for C3 at the three-record scenario of the specification. -/
theorem C3_category_totals_partition_witness :
    (analyzeSpendingPatterns (fun _ => 0) "" w3).status = "success" ∧
    ((analyzeSpendingPatterns (fun _ => 0) "" w3).spendingSummary
      = some (calculateSpendingSummary (fun _ => 0) (prepareDataframe w3)) ∧
     (analyzeSpendingPatterns (fun _ => 0) "" w3).categoryInsights
      = some (analyzeCategories (fun _ => 0) (prepareDataframe w3)) ∧
     ((analyzeCategories (fun _ => 0) (prepareDataframe w3)).detailedAnalysis.map
        CategoryStats.totalSpent).sum
      = (calculateSpendingSummary (fun _ => 0) (prepareDataframe w3)).totalSpending) :=
  ⟨by decide, C3_category_totals_partition (fun _ => 0) "" w3 (by decide)⟩

/-! ### Claim C4 -/

lemma healthConsistencyScore_nonneg (fsqrt : ℚ → ℚ) (df : List VRecord) :
    0 ≤ healthConsistencyScore fsqrt df := by
  unfold healthConsistencyScore
  cases sampleStd fsqrt (dailyTotals df) with
  | none => exact le_refl 0
  | some s => exact le_max_left 0 _

lemma healthDiversityScore_ge (df : List VRecord) (h : df ≠ []) :
    3 ≤ healthDiversityScore df := by
  unfold healthDiversityScore
  have h1 : 1 ≤ (distinctCats df).length := by
    cases df with
    | nil => exact absurd rfl h
    | cons r rest =>
      have hm : r.category ∈ distinctCats (r :: rest) :=
        List.mem_dedup.mpr (by simp)
      exact List.length_pos.mpr (List.ne_nil_of_mem hm)
  have h1q : (1 : ℚ) ≤ ((distinctCats df).length : ℚ) := by exact_mod_cast h1
  exact le_min (by norm_num) (by linarith)

lemma healthTrendPenalty_bounds (df : List VRecord) :
    0 ≤ healthTrendPenalty df ∧ healthTrendPenalty df ≤ 15 := by
  unfold healthTrendPenalty
  split
  · split
    · norm_num
    · split <;> norm_num
  · norm_num

lemma healthOutlierPenalty_bounds (df : List VRecord) :
    0 ≤ healthOutlierPenalty df ∧ healthOutlierPenalty df ≤ 25 := by
  unfold healthOutlierPenalty
  refine ⟨le_min (by norm_num) ?_, min_le_left _ _⟩
  apply mul_nonneg
  apply mul_nonneg (div_nonneg (Nat.cast_nonneg _) (Nat.cast_nonneg _))
  all_goals norm_num

/-- On a non-empty frame the unclamped health score is at least 13:
the four deductions are bounded by 30, 17, 15 and 25. -/
lemma healthScoreRaw_ge (fsqrt : ℚ → ℚ) (df : List VRecord) (h : df ≠ []) :
    13 ≤ healthScoreRaw fsqrt df := by
  unfold healthScoreRaw
  have h1 := healthConsistencyScore_nonneg fsqrt df
  have h2 := healthDiversityScore_ge df h
  have h3 := healthTrendPenalty_bounds df
  have h4 := healthOutlierPenalty_bounds df
  linarith [h3.2, h4.2]

/-- Clamping a score that is at least 13 into [0,100] keeps it in [0,100],
and the threshold buckets of the unclamped score agree with those of the
clamped score. -/
lemma score_shape (s : ℚ) (h13 : 13 ≤ s) :
    0 ≤ max 0 (min 100 s) ∧ max 0 (min 100 s) ≤ 100 ∧
    ((if 85 ≤ s then "excellent" else if 70 ≤ s then "good" else if 55 ≤ s then "fair"
      else "needs_improvement")
      = (if 85 ≤ max 0 (min 100 s) then "excellent"
         else if 70 ≤ max 0 (min 100 s) then "good"
         else if 55 ≤ max 0 (min 100 s) then "fair" else "needs_improvement")) := by
  have hmax : max 0 (min 100 s) = min 100 s :=
    max_eq_right (le_min (by norm_num) (by linarith))
  rw [hmax]
  refine ⟨le_min (by norm_num) (by linarith), min_le_left _ _, ?_⟩
  by_cases h : (100 : ℚ) ≤ s
  · rw [min_eq_left h]
    rw [if_pos (by linarith : (85:ℚ) ≤ s), if_pos (by norm_num : (85:ℚ) ≤ 100)]
  · rw [min_eq_right (by linarith : s ≤ 100)]

lemma assess_spec (fsqrt : ℚ → ℚ) (df : List VRecord) (h : df ≠ []) :
    0 ≤ (assessFinancialHealth fsqrt df).overallScore ∧
    (assessFinancialHealth fsqrt df).overallScore ≤ 100 ∧
    (assessFinancialHealth fsqrt df).status =
      (if 85 ≤ (assessFinancialHealth fsqrt df).overallScore then "excellent"
       else if 70 ≤ (assessFinancialHealth fsqrt df).overallScore then "good"
       else if 55 ≤ (assessFinancialHealth fsqrt df).overallScore then "fair"
       else "needs_improvement") := by
  have hie : df.isEmpty = false := by
    cases df with
    | nil => exact absurd rfl h
    | cons a l => rfl
  unfold assessFinancialHealth
  rw [hie]
  simp only [Bool.false_eq_true, if_false]
  exact score_shape (healthScoreRaw fsqrt df) (healthScoreRaw_ge fsqrt df h)

/-- C4: whenever `analyze` succeeds (non-empty filtered record set), the
reported overall financial-health score lies in [0,100], and the reported
health status is the threshold bucket of the reported score: `excellent`
at ≥ 85, `good` at ≥ 70, `fair` at ≥ 55, `needs_improvement` below.  (This
holds for every abstract square root `fsqrt`.) -/
theorem C4_health_score_bounds (fsqrt : ℚ → ℚ) (now : String) (rs : List RawRecord)
    (h : (analyzeSpendingPatterns fsqrt now rs).status = "success") :
    (analyzeSpendingPatterns fsqrt now rs).financialHealth
      = some (assessFinancialHealth fsqrt (prepareDataframe rs)) ∧
    (0 ≤ (assessFinancialHealth fsqrt (prepareDataframe rs)).overallScore ∧
     (assessFinancialHealth fsqrt (prepareDataframe rs)).overallScore ≤ 100 ∧
     (assessFinancialHealth fsqrt (prepareDataframe rs)).status =
      (if 85 ≤ (assessFinancialHealth fsqrt (prepareDataframe rs)).overallScore then "excellent"
       else if 70 ≤ (assessFinancialHealth fsqrt (prepareDataframe rs)).overallScore then "good"
       else if 55 ≤ (assessFinancialHealth fsqrt (prepareDataframe rs)).overallScore then "fair"
       else "needs_improvement")) := by
  obtain ⟨h1, h2⟩ := status_success_elim fsqrt now rs h
  exact ⟨by rw [analyze_success_eq fsqrt now rs h1 h2],
         assess_spec fsqrt (prepareDataframe rs) h2⟩

/-- Witness for C4 at the three-record scenario. -/
theorem C4_health_score_bounds_witness :
    (analyzeSpendingPatterns (fun _ => 0) "" w3).status = "success" ∧
    ((analyzeSpendingPatterns (fun _ => 0) "" w3).financialHealth
      = some (assessFinancialHealth (fun _ => 0) (prepareDataframe w3)) ∧
     (0 ≤ (assessFinancialHealth (fun _ => 0) (prepareDataframe w3)).overallScore ∧
      (assessFinancialHealth (fun _ => 0) (prepareDataframe w3)).overallScore ≤ 100 ∧
      (assessFinancialHealth (fun _ => 0) (prepareDataframe w3)).status =
       (if 85 ≤ (assessFinancialHealth (fun _ => 0) (prepareDataframe w3)).overallScore
        then "excellent"
        else if 70 ≤ (assessFinancialHealth (fun _ => 0) (prepareDataframe w3)).overallScore
        then "good"
        else if 55 ≤ (assessFinancialHealth (fun _ => 0) (prepareDataframe w3)).overallScore
        then "fair"
        else "needs_improvement"))) :=
  ⟨by decide, C4_health_score_bounds (fun _ => 0) "" w3 (by decide)⟩

/-! ### Claim C5 -/

/-- C5: with at least 5 valid transactions, every transaction in the
reported `unusual_high_amounts` list (which is either the `high_outliers`
frame itself or, past 5 outliers, empty) has an amount strictly above
`Q3 + 1.5*IQR`, and every transaction in the `low_outliers` selection of the source
selection has an amount strictly below `Q1 - 1.5*IQR`, both fences computed
on the full transaction-amount distribution. -/
theorem C5_outlier_fences (fsqrt : ℚ → ℚ) (now : String) (rs : List RawRecord)
    (h5 : 5 ≤ (prepareDataframe rs).length) :
    (analyzeSpendingPatterns fsqrt now rs).anomalies
      = some (detectSpendingAnomalies fsqrt (prepareDataframe rs)) ∧
    (∀ r ∈ highOutliers (prepareDataframe rs),
      quantileQ (3/4) ((prepareDataframe rs).map VRecord.amount)
        + (3/2) * (quantileQ (3/4) ((prepareDataframe rs).map VRecord.amount)
            - quantileQ (1/4) ((prepareDataframe rs).map VRecord.amount)) < r.amount) ∧
    (∀ r ∈ lowOutliers (prepareDataframe rs),
      r.amount < quantileQ (1/4) ((prepareDataframe rs).map VRecord.amount)
        - (3/2) * (quantileQ (3/4) ((prepareDataframe rs).map VRecord.amount)
            - quantileQ (1/4) ((prepareDataframe rs).map VRecord.amount))) ∧
    (∀ txn ud ca,
      detectSpendingAnomalies fsqrt (prepareDataframe rs) = .found txn ud ca →
      txn.unusualHighAmounts = highOutliers (prepareDataframe rs)
        ∨ txn.unusualHighAmounts = []) := by
  have h2 : prepareDataframe rs ≠ [] := by
    intro h0
    rw [h0] at h5
    simp at h5
  have h1 : rs ≠ [] := by
    intro h0
    rw [h0] at h2
    exact h2 rfl
  refine ⟨by rw [analyze_success_eq fsqrt now rs h1 h2], ?_, ?_, ?_⟩
  · intro r hr
    simp only [highOutliers] at hr
    exact of_decide_eq_true (List.mem_filter.mp hr).2
  · intro r hr
    simp only [lowOutliers] at hr
    exact of_decide_eq_true (List.mem_filter.mp hr).2
  · intro txn ud ca hfound
    simp only [detectSpendingAnomalies] at hfound
    rw [if_neg (not_lt.mpr h5)] at hfound
    cases hfound
    by_cases hle : (highOutliers (prepareDataframe rs)).length ≤ 5
    · left
      simp [hle]
    · right
      simp [hle]

/-- Five valid records with one extreme amount, used as witness input. -/
def w5 : List RawRecord :=
  [{ date := some 20240101, amount := some 10, category := "Food", description := "" },
   { date := some 20240102, amount := some 10, category := "Food", description := "" },
   { date := some 20240103, amount := some 10, category := "Food", description := "" },
   { date := some 20240104, amount := some 10, category := "Food", description := "" },
   { date := some 20240105, amount := some 1000, category := "Shopping", description := "" }]

/-- Witness for C5 at a five-record input with one extreme transaction. -/
theorem C5_outlier_fences_witness :
    5 ≤ (prepareDataframe w5).length ∧
    ((analyzeSpendingPatterns (fun _ => 0) "" w5).anomalies
      = some (detectSpendingAnomalies (fun _ => 0) (prepareDataframe w5)) ∧
     (∀ r ∈ highOutliers (prepareDataframe w5),
       quantileQ (3/4) ((prepareDataframe w5).map VRecord.amount)
         + (3/2) * (quantileQ (3/4) ((prepareDataframe w5).map VRecord.amount)
             - quantileQ (1/4) ((prepareDataframe w5).map VRecord.amount)) < r.amount) ∧
     (∀ r ∈ lowOutliers (prepareDataframe w5),
       r.amount < quantileQ (1/4) ((prepareDataframe w5).map VRecord.amount)
         - (3/2) * (quantileQ (3/4) ((prepareDataframe w5).map VRecord.amount)
             - quantileQ (1/4) ((prepareDataframe w5).map VRecord.amount))) ∧
     (∀ txn ud ca,
       detectSpendingAnomalies (fun _ => 0) (prepareDataframe w5) = .found txn ud ca →
       txn.unusualHighAmounts = highOutliers (prepareDataframe w5)
         ∨ txn.unusualHighAmounts = [])) :=
  ⟨by decide, C5_outlier_fences (fun _ => 0) "" w5 (by decide)⟩

/-! ### Claim C9 -/

/-- The early-month bucket as the specification words it: the average of the
per-day-of-month mean amounts over the observed calendar days 1 through 10
of the month.  To be compared with the positional `iloc[:10]` slice that the
`monthly_cycle` slice of the source takes over the same group means. -/
def earlyMonthAvgByCalendar (df : List VRecord) : ℚ :=
  meanQ (((sortedDistinct (df.map (fun r => dayOfMonth r.date))).filter
      (fun d => decide (1 ≤ d ∧ d ≤ 10))).map
    (fun d => meanQ ((df.filter (fun r => decide (dayOfMonth r.date = d))).map VRecord.amount)))

/-- Ten records on the calendar days 2..11 of one month, one per day; day 11
carries the extreme amount.  The ten distinct day-of-month values make the
`len >= 10` guard pass, and the positional `iloc[:10]` slice picks all ten
observed days — including day 11, which the calendar reading (days 1-10)
excludes. -/
def c9Records : List RawRecord :=
  [{ date := some 20240102, amount := some 10, category := "Food", description := "" },
   { date := some 20240103, amount := some 10, category := "Food", description := "" },
   { date := some 20240104, amount := some 10, category := "Food", description := "" },
   { date := some 20240105, amount := some 10, category := "Food", description := "" },
   { date := some 20240106, amount := some 10, category := "Food", description := "" },
   { date := some 20240107, amount := some 10, category := "Food", description := "" },
   { date := some 20240108, amount := some 10, category := "Food", description := "" },
   { date := some 20240109, amount := some 10, category := "Food", description := "" },
   { date := some 20240110, amount := some 10, category := "Food", description := "" },
   { date := some 20240111, amount := some 1000, category := "Food", description := "" }]

/-- The prepared frame of `c9Records`. -/
def c9Frame : List VRecord :=
  [⟨20240102, 10, "Food", ""⟩, ⟨20240103, 10, "Food", ""⟩, ⟨20240104, 10, "Food", ""⟩,
   ⟨20240105, 10, "Food", ""⟩, ⟨20240106, 10, "Food", ""⟩, ⟨20240107, 10, "Food", ""⟩,
   ⟨20240108, 10, "Food", ""⟩, ⟨20240109, 10, "Food", ""⟩, ⟨20240110, 10, "Food", ""⟩,
   ⟨20240111, 1000, "Food", ""⟩]

/-- C9 (the code evaluated at the failing input): the `early_month_avg`
reported by the behavioral-patterns sub-result is the mean over the first
ten positions of the day-of-month groupby — here 109, because the observed
day 11 lands in the positional slice — whereas the calendar early-month
bucket (days 1-10) that the claim describes averages to 10.  The positional
and the calendar readings disagree, so the bucketing is not by calendar
day-of-month ranges. -/
theorem C9_positional_bucket_bug :
    (analyzeSpendingPatterns (fun _ => 0) "" c9Records).behavioralPatterns
      = some (analyzeBehavioralPatterns (fun _ => 0) (prepareDataframe c9Records)) ∧
    (monthlyCycleOf (prepareDataframe c9Records)).earlyMonthAvg = 109 ∧
    earlyMonthAvgByCalendar (prepareDataframe c9Records) = 10 ∧
    (monthlyCycleOf (prepareDataframe c9Records)).earlyMonthAvg
      ≠ earlyMonthAvgByCalendar (prepareDataframe c9Records) := by
  have hdf : prepareDataframe c9Records = c9Frame := by decide
  have hsd : sortedDistinct (c9Frame.map (fun r => dayOfMonth r.date))
      = [2, 3, 4, 5, 6, 7, 8, 9, 10, 11] := by decide
  have hsd2 : sortedDistinct [2, 3, 4, 5, 6, 7, 8, 9, 10, 11]
      = [2, 3, 4, 5, 6, 7, 8, 9, 10, 11] := by decide
  have h109 : (monthlyCycleOf (prepareDataframe c9Records)).earlyMonthAvg = 109 := by
    rw [hdf]
    norm_num [monthlyCycleOf, dayOfMonthMeans, hsd, hsd2, dayOfMonth, meanQ, c9Frame,
      List.filter_cons, List.filter_nil]
  have h10 : earlyMonthAvgByCalendar (prepareDataframe c9Records) = 10 := by
    rw [hdf]
    norm_num [earlyMonthAvgByCalendar, hsd, hsd2, dayOfMonth, meanQ, c9Frame,
      List.filter_cons, List.filter_nil]
  refine ⟨?_, h109, h10, ?_⟩
  · rw [analyze_success_eq (fun _ => 0) "" c9Records (by decide)
      (by rw [hdf]; exact (by decide : c9Frame ≠ []))]
  · rw [h109, h10]
    norm_num

end ExpenseTracker
